import Mathlib

/-!
Shallow embedding of the gohan transaction contract (db/transaction/transaction.go)
and of the otto scripting bridge to the sync subsystem (extension/otto sync
builtins: gohan_sync_fetch and gohan_sync_watch), with the spec's claims settled
as theorems below the definitions.
-/

namespace Gohan

/-! ### db/transaction/transaction.go -/

/-- Embeds Go `type Type string` (transaction isolation type). `Type` is a Lean
keyword, so the Lean name is `Typ`; the wrapped string is the Go string value. -/
structure Typ where
  val : String
  deriving DecidableEq, Repr

/-- Go constant `ReadUncommited Type = "READ UNCOMMITTED"`. -/
def ReadUncommited : Typ := ⟨"READ UNCOMMITTED"⟩

/-- Go constant `ReadCommited Type = "READ COMMITTED"`. -/
def ReadCommited : Typ := ⟨"READ COMMITTED"⟩

/-- Go constant `RepeatableRead Type = "REPEATABLE READ"`. -/
def RepeatableRead : Typ := ⟨"REPEATABLE READ"⟩

/-- Go constant `Serializable Type = "Serializable"`. -/
def Serializable : Typ := ⟨"Serializable"⟩

/-- Embeds a script-level / database value (Go `interface{}` as it crosses the
otto bridge): null, strings, integers, booleans, objects and arrays. -/
inductive JSValue where
  | null
  | str (s : String)
  | int (n : Int)
  | bool (b : Bool)
  | obj (fields : List (String × JSValue))
  | arr (elems : List JSValue)

/-- Embeds Go `type Filter map[string]interface{}` as an association list with
unique keys (spec section 3: keys unique). -/
def Filter := List (String × JSValue)

/-- Embeds `IDFilter` (transaction.go): `return Filter{"id": ID}`. -/
def IDFilter (ID : JSValue) : Filter := [("id", ID)]

/-- Modelled from the spec: the external package `schema.Schema` is not under
src/; only the field consumed by `GetIsolationLevel` is embedded. Its
`IsolationLevel` map (action name to declared isolation override) is an
association list; a Go map lookup with the `ok` idiom is `List.lookup`. The Go
code stores the override as `interface{}` and asserts it to `Type` on the way
out; the model stores `Typ` directly, embedding the successful assertion. -/
structure Schema where
  isolationLevel : List (String × Typ)

/-- Embeds `GetIsolationLevel` (transaction.go lines 81-92): return the declared
override when the map has one, else `RepeatableRead` for `"read"` and
`Serializable` for any other action. -/
def GetIsolationLevel (s : Schema) (action : String) : Typ :=
  match s.isolationLevel.lookup action with
  | some level => level
  | none => if action = "read" then RepeatableRead else Serializable

/-- Modelled from the spec: the error taxonomy of section 7; concrete Transaction
implementations are not under src/, only the interface (transaction.go lines
61-78), so the error kinds a closed transaction reports come from the spec. -/
inductive TxError where
  | transactionClosed
  | notFound
  | constraintViolation
  deriving DecidableEq, Repr

/-- The operations of the Transaction interface (transaction.go lines 61-78)
that act on the transaction after construction. -/
inductive TxOp where
  | create
  | update
  | delete
  | fetch
  | list
  | lockFetch
  | lockList
  | stateFetch
  | stateUpdate
  | query
  | commit
  deriving DecidableEq, Repr

/-- Modelled from the spec: the lifecycle state of a Transaction (section 4.2:
Open, Committed, Closed); implementations are not under src/. -/
structure TxState where
  committed : Bool
  closed : Bool
  deriving DecidableEq, Repr

/-- Modelled from the spec: `Close()` releases the transaction; idempotent
(section 4.2). -/
def Close (st : TxState) : TxState := { st with closed := true }

/-- Modelled from the spec: `Closed()` reports the current release state. -/
def Closed (st : TxState) : Bool := st.closed

/-- Modelled from the spec: running any Transaction operation. Every operation
invoked after `Close()` fails with `TransactionClosed` (section 4.2); on an open
transaction, `Commit` moves the state to Committed and the other operations
leave the lifecycle state unchanged. -/
def runOp (st : TxState) (op : TxOp) : Except TxError TxState :=
  if st.closed then
    .error .transactionClosed
  else
    match op with
    | .commit => .ok { st with committed := true }
    | _ => .ok st

/-! ### sync data model (github.com/cloudwan/gohan/sync as used by the bridge) -/

/-- Embeds `sync.Event` as consumed by `convertSyncEvent`: fields Action, Key,
Data, Revision. The Data payload is opaque to the bridge and modelled as a
`JSValue`. -/
structure Event where
  action : String
  key : String
  data : JSValue
  revision : Int

/-- Embeds `sync.Node` as consumed by `convertSyncNode`: fields Key, Value,
Revision, Children. -/
inductive Node where
  | mk (key : String) (value : JSValue) (revision : Int) (children : List Node)

/-- Embeds `convertSyncEvent` (extension/otto sync builtins): builds the script
object with the action, key, data and revision fields. -/
def convertSyncEvent (e : Event) : JSValue :=
  .obj [("action", .str e.action), ("key", .str e.key), ("data", e.data),
        ("revision", .int e.revision)]

mutual

/-- Embeds `convertSyncNode`: builds the script object with the key, value,
revision and children fields, children converted recursively. -/
def convertSyncNode : Node → JSValue
  | .mk key value revision children =>
    .obj [("key", .str key), ("value", value), ("revision", .int revision),
          ("children", .arr (convertSyncNodes children))]

/-- Embeds `convertSyncNodes`: converts a list of nodes in order. -/
def convertSyncNodes : List Node → List JSValue
  | [] => []
  | n :: rest => convertSyncNode n :: convertSyncNodes rest

end

/-! ### otto sync bridge (extension/otto sync builtins) -/

/-- A raw script argument as handed to the bridge by the otto VM, before type
validation: a string, an integer, or any other script value. -/
inductive OttoValue where
  | str (s : String)
  | int (n : Int)
  | other

/-- Modelled from the spec: the helper `GetString` (extension/otto, not under
src/) converts a script argument, failing on anything but a string (section 6:
fetch and watch validate that `path` is a string before dispatch). -/
def GetString : OttoValue → Except String String
  | .str s => .ok s
  | _ => .error "expected a string"

/-- Modelled from the spec: the helper `GetInt64` (extension/otto, not under
src/) converts a script argument, failing on anything but an integer (section 6:
watch validates that timeoutMsec and revision are integers before dispatch). -/
def GetInt64 : OttoValue → Except String Int
  | .int n => .ok n
  | _ => .error "expected an int64"

/-- The observable steps the bridge functions take, in order: raising the stop
signal on stopChan, invoking the received interrupt continuation, dispatching
store or network work (the background goroutine), returning a value to the
script, and throwing a script exception via ThrowOttoException. -/
inductive Action where
  | sendStop
  | callInterrupt
  | dispatch
  | returnValue (v : JSValue)
  | throwException (msg : String)

/-- Which of the four racing select cases of `gohan_sync_watch` (lines 133-149)
fires first: an otto interrupt, the next available event, the timeout timer, or
a subscription error from errorChan. -/
inductive RaceOutcome where
  | interrupt
  | event (e : Event)
  | timeout
  | syncError (msg : String)

/-- Which of the two racing select cases of `gohan_sync_fetch` (lines 81-86)
fires first: an otto interrupt, or completion of the fetch goroutine with its
result. -/
inductive FetchOutcome where
  | interrupt
  | done (result : Except String Node)

/-- Embeds `gohan_sync_fetch` (extension/otto sync builtins, lines 62-98) as
the ordered list of observable actions of one call. Arity and the string check
on the path run first; only then is the fetch goroutine dispatched and the
two-way select entered. `ThrowOttoException` aborts the call with a catchable
script exception, so a throw ends the trace; the arity check is
`VerifyCallArguments`, modelled from the spec (the helper is not under src/) as
throwing an argument error on a call whose arity is not exactly 1. -/
def gohan_sync_fetch (args : List OttoValue) (outcome : FetchOutcome) : List Action :=
  match args with
  | [a0] =>
    match GetString a0 with
    | .error _ => [.throwException "Invalid type of first argument: expected a string"]
    | .ok _path =>
      match outcome with
      | .interrupt => [.dispatch, .callInterrupt]
      | .done (.error e) => [.dispatch, .throwException ("Failed to fetch sync: " ++ e)]
      | .done (.ok node) => [.dispatch, .returnValue (convertSyncNode node)]
  | _ => [.throwException "gohan_sync_fetch: invalid number of arguments"]

/-- Embeds `gohan_sync_watch` (extension/otto sync builtins, lines 99-151) as
the ordered list of observable actions of one call. Arity and the three type
checks run first; only then are the channels created, the subscription goroutine
dispatched, and the four-way select entered. The select branches follow the
source: interrupt sends stop then invokes the interrupt continuation and the
call yields null; an event is converted and returned; timeout sends stop and
returns the empty object; a subscription error is thrown as a catchable script
exception. `VerifyCallArguments` is modelled from the spec (not under src/) as
throwing an argument error on a call whose arity is not exactly 3. -/
def gohan_sync_watch (args : List OttoValue) (outcome : RaceOutcome) : List Action :=
  match args with
  | [a0, a1, a2] =>
    match GetString a0 with
    | .error _ => [.throwException "Invalid type of first argument: expected a string"]
    | .ok _path =>
      match GetInt64 a1 with
      | .error _ => [.throwException "Invalid type of first argument: expected an int64"]
      | .ok _timeoutMsec =>
        match GetInt64 a2 with
        | .error _ => [.throwException "Invalid type of first argument: expected an int64"]
        | .ok _revision =>
          .dispatch ::
          match outcome with
          | .interrupt => [.sendStop, .callInterrupt, .returnValue .null]
          | .event e => [.returnValue (convertSyncEvent e)]
          | .timeout => [.sendStop, .returnValue (.obj [])]
          | .syncError msg => [.throwException ("Sync watch ex failed: " ++ msg)]
  | _ => [.throwException "gohan_sync_watch: invalid number of arguments"]

/-! ### what the script caller observes of a bridge call -/

/-- The value the script caller receives from a bridge call: the first
`returnValue` of the trace, unless a script exception aborts the call first. -/
def returnedValue : List Action → Option JSValue
  | [] => none
  | .returnValue v :: _ => some v
  | .throwException _ :: _ => none
  | _ :: rest => returnedValue rest

/-- The script exception the caller can catch from a bridge call: the first
`throwException` of the trace, unless a value is returned first. -/
def thrownError : List Action → Option String
  | [] => none
  | .throwException m :: _ => some m
  | .returnValue _ :: _ => none
  | _ :: rest => thrownError rest

/-- True when a `sendStop` occurs strictly before the call finishes (before the
first `returnValue` or `throwException` of the trace). -/
def stopRaisedBeforeFinish : List Action → Bool
  | [] => false
  | .sendStop :: _ => true
  | .returnValue _ :: _ => false
  | .throwException _ :: _ => false
  | _ :: rest => stopRaisedBeforeFinish rest

/-- Counts the `throwException` actions of a trace. -/
def throwCount : List Action → Nat
  | [] => 0
  | .throwException _ :: rest => throwCount rest + 1
  | _ :: rest => throwCount rest

/-- Counts the `sendStop` actions of a trace. -/
def sendStopCount : List Action → Nat
  | [] => 0
  | .sendStop :: rest => sendStopCount rest + 1
  | _ :: rest => sendStopCount rest

/-- True when a trace contains a `dispatch` action, i.e. when the call reached
the store or network. -/
def dispatches : List Action → Bool
  | [] => false
  | .dispatch :: _ => true
  | _ :: rest => dispatches rest

/-- True of a script value carrying no event data: null or the empty object. -/
def isEmptyValue : JSValue → Bool
  | .null => true
  | .obj [] => true
  | _ => false

/-- True when the argument list passes `gohan_sync_fetch` validation: arity
exactly 1 with a string path. -/
def fetchArgsValid : List OttoValue → Bool
  | [.str _] => true
  | _ => false

/-- True when the argument list passes `gohan_sync_watch` validation: arity
exactly 3 with a string path and integer timeout and revision. -/
def watchArgsValid : List OttoValue → Bool
  | [.str _, .int _, .int _] => true
  | _ => false

/-! ### channel model of the watch bridge -/

/-- The slot count of eventChan in `gohan_sync_watch` (line 123):
`make(chan *sync.Event, 32)`. -/
def eventChanCapacity : Nat := 32

/-- The slot count of stopChan in `gohan_sync_watch` (line 124):
`make(chan bool, 1)`. -/
def stopChanCapacity : Nat := 1

/-- Modelled from the spec: the event source's non-blocking hand-off into the
bounded eventChan buffer (section 4.5: bounded slot count, non-blocking
hand-off; once the buffer saturates further events are dropped from the
producer's point of view). The producing subscription is not under src/. -/
def trySend (buf : List Event) (e : Event) : List Event :=
  if buf.length < eventChanCapacity then buf ++ [e] else buf

/-- A burst of events handed off in order into an initially empty eventChan
buffer before the caller reads any. -/
def produceBurst (events : List Event) : List Event :=
  events.foldl trySend []

/-- A single channel receive as the bridge's event select case performs it:
takes the first buffered event, leaving the rest unread. -/
def receiveOne (buf : List Event) : Option Event × List Event :=
  match buf with
  | [] => (none, [])
  | e :: rest => (some e, rest)

/-! ### the background subscription -/

/-- Embeds the error relay of the goroutine at lines 127-131 of
`gohan_sync_watch`: `if err := env.Sync.Watch(...); err != nil` sends that one
error to errorChan, so the worker emits one error when the subscription
returns one and none otherwise. -/
def watchWorkerErrors (watchResult : Option String) : List String :=
  match watchResult with
  | some e => [e]
  | none => []

/-- A message reaching the subscription loop from the coordination link or from
the bridge: a mutation event, the stop signal, or a link failure. -/
inductive LinkMsg where
  | ev (e : Event)
  | stop
  | linkFailure (msg : String)

/-- Modelled from the spec: the `Sync.Watch` subscription loop (not under src/),
section 4.5: it streams each mutation as an event into the event sink until the
stop signal is raised or the coordination link fails, the failure reported once
via the error path, either way terminating the subscription. The result is the
final event buffer, the error reported (if any), and whether the subscription
terminated; messages after the terminating one are never processed. -/
def watchSubscription : List LinkMsg → List Event → List Event × Option String × Bool
  | [], buf => (buf, none, false)
  | .stop :: _, buf => (buf, none, true)
  | .linkFailure m :: _, buf => (buf, some m, true)
  | .ev e :: rest, buf => watchSubscription rest (trySend buf e)

/-- True when every message of the list is a plain event (no stop signal and no
link failure among them). -/
def eventsOnly : List LinkMsg → Bool
  | [] => true
  | .ev _ :: rest => eventsOnly rest
  | _ => false

/-- Modelled from the spec: which events a `Watch` subscription started at the
given revision delivers for a mutation sequence at the watched path (section
4.5: all mutations whose Revision is strictly greater than the starting
revision, streamed in order; no event with Revision at most the starting
revision is ever delivered). -/
def watchDeliveredEvents (revision : Int) (mutations : List Event) : List Event :=
  mutations.filter (fun e => decide (revision < e.revision))

/-- A synthetic mutation event at a fixed path with the given revision, as in
the spec's synthetic mutation sequence of section 8. -/
def syntheticEvent (rev : Int) : Event :=
  { action := "update", key := "path", data := .null, revision := rev }

/-! ### claims about the transaction contract -/

/-- C3: for every schema and action, `GetIsolationLevel` returns a declared
override verbatim; without an override it returns `RepeatableRead` for the
read action and `Serializable` for every other action. -/
theorem getIsolationLevel_override_and_defaults (s : Schema) (a : String) :
    (∀ t, s.isolationLevel.lookup a = some t → GetIsolationLevel s a = t) ∧
    (s.isolationLevel.lookup a = none →
      GetIsolationLevel s a = if a = "read" then RepeatableRead else Serializable) := by
  constructor
  · intro t h
    unfold GetIsolationLevel
    rw [h]
  · intro h
    unfold GetIsolationLevel
    rw [h]

/-- C3 witness: an explicit override is returned verbatim, and without an
override the read action gets RepeatableRead while another action gets
Serializable. -/
theorem getIsolationLevel_override_and_defaults_witness :
    GetIsolationLevel ⟨[("delete", ReadCommited)]⟩ "delete" = ReadCommited ∧
    GetIsolationLevel ⟨[]⟩ "read" = RepeatableRead ∧
    GetIsolationLevel ⟨[]⟩ "create" = Serializable :=
  ⟨(getIsolationLevel_override_and_defaults ⟨[("delete", ReadCommited)]⟩ "delete").1
      ReadCommited rfl,
   by simpa using (getIsolationLevel_override_and_defaults ⟨[]⟩ "read").2 rfl,
   by simpa using (getIsolationLevel_override_and_defaults ⟨[]⟩ "create").2 rfl⟩

/-- C8: for every transaction state, whatever was committed before: after
`Close`, `Closed` reports true, `Close` is idempotent, and every subsequent
operation (Create, Update, Delete, Fetch, List, LockFetch, LockList,
StateFetch, StateUpdate, Query, Commit) fails with TransactionClosed. -/
theorem transaction_closed_ops_fail (st : TxState) (op : TxOp) :
    Closed (Close st) = true ∧
    Close (Close st) = Close st ∧
    runOp (Close st) op = .error .transactionClosed :=
  ⟨rfl, rfl, rfl⟩

/-- C9: for every value, `IDFilter` builds exactly the single-entry mapping
binding the key id to that value. -/
theorem idFilter_single_entry (v : JSValue) (k : String) :
    IDFilter v = [("id", v)] ∧
    (IDFilter v).length = 1 ∧
    List.lookup k (IDFilter v) = if k = "id" then some v else none := by
  refine ⟨rfl, rfl, ?_⟩
  by_cases h : k = "id"
  · subst h
    simp [IDFilter]
  · have hb : (k == "id") = false := beq_eq_false_iff_ne.mpr h
    simp [IDFilter, List.lookup, hb, h]

/-- True of an ASCII uppercase letter. -/
def isUpperAscii (c : Char) : Bool :=
  decide (65 ≤ c.toNat) && decide (c.toNat ≤ 90)

/-- True of a string written entirely in the uppercase SQL-keyword form:
uppercase ASCII letters and spaces only. -/
def isUpperSqlForm (s : String) : Bool :=
  s.data.all (fun c => isUpperAscii c || c == ' ')

/-- C10: the four isolation Type constants carry the string values
"READ UNCOMMITTED", "READ COMMITTED", "REPEATABLE READ" and "Serializable";
the first three are in the uppercase SQL-keyword form, while Serializable is
mixed-case and differs from the uppercase form "SERIALIZABLE" that an
uppercase-comparing consumer would use. -/
theorem isolation_type_string_values :
    ReadUncommited.val = "READ UNCOMMITTED" ∧
    ReadCommited.val = "READ COMMITTED" ∧
    RepeatableRead.val = "REPEATABLE READ" ∧
    Serializable.val = "Serializable" ∧
    isUpperSqlForm ReadUncommited.val = true ∧
    isUpperSqlForm ReadCommited.val = true ∧
    isUpperSqlForm RepeatableRead.val = true ∧
    isUpperSqlForm Serializable.val = false ∧
    Serializable.val ≠ "SERIALIZABLE" := by
  refine ⟨rfl, rfl, rfl, rfl, ?_, ?_, ?_, ?_, ?_⟩ <;> decide

/-! ### claims about the sync bridge -/

/-- C1: whatever the (validated) arguments, when the timeout fires first the
watch call returns the empty object, throws nothing, and raises the stop signal
before finishing; when an external interrupt fires first the call yields an
empty value (null), throws nothing, and likewise raises the stop signal before
finishing. -/
theorem watch_timeout_interrupt_empty_and_stop (p : String) (t rev : Int) :
    returnedValue (gohan_sync_watch [.str p, .int t, .int rev] .timeout) =
      some (.obj []) ∧
    thrownError (gohan_sync_watch [.str p, .int t, .int rev] .timeout) = none ∧
    stopRaisedBeforeFinish (gohan_sync_watch [.str p, .int t, .int rev] .timeout) =
      true ∧
    (returnedValue (gohan_sync_watch [.str p, .int t, .int rev] .interrupt)).map
      isEmptyValue = some true ∧
    thrownError (gohan_sync_watch [.str p, .int t, .int rev] .interrupt) = none ∧
    stopRaisedBeforeFinish (gohan_sync_watch [.str p, .int t, .int rev] .interrupt) =
      true :=
  ⟨rfl, rfl, rfl, rfl, rfl, rfl⟩

/-- C2: a watch subscription started at a given revision delivers no event whose
revision is at most that revision, and the synthetic mutation sequence with
revisions 3, 6, 7, 9 watched from revision 5 delivers exactly the events with
revisions 6, 7, 9 in that order. -/
theorem watch_revision_filter (r : Int) (mutations : List Event) :
    (watchDeliveredEvents r mutations).all (fun e => decide (r < e.revision)) =
      true ∧
    watchDeliveredEvents 5
        [syntheticEvent 3, syntheticEvent 6, syntheticEvent 7, syntheticEvent 9] =
      [syntheticEvent 6, syntheticEvent 7, syntheticEvent 9] := by
  constructor
  · rw [List.all_eq_true]
    intro e he
    exact (List.mem_filter.mp he).2
  · rfl

/-- Folding the non-blocking hand-off over a burst keeps the buffer prefix and
the first events that fit the remaining capacity, dropping the rest. -/
theorem trySend_foldl_eq_take (events : List Event) (acc : List Event) :
    events.foldl trySend acc =
      acc ++ events.take (eventChanCapacity - acc.length) := by
  induction events generalizing acc with
  | nil => simp
  | cons e rest ih =>
    by_cases h : acc.length < eventChanCapacity
    · have hts : trySend acc e = acc ++ [e] := by simp [trySend, h]
      have hlen : (acc ++ [e]).length = acc.length + 1 := by simp
      rw [List.foldl_cons, hts, ih, hlen]
      have hsucc : eventChanCapacity - acc.length =
          (eventChanCapacity - (acc.length + 1)) + 1 := by omega
      rw [hsucc, List.take_succ_cons, List.append_assoc]
      rfl
    · have hts : trySend acc e = acc := by simp [trySend, h]
      have h0 : eventChanCapacity - acc.length = 0 := by omega
      have h0' : eventChanCapacity - (acc.length) = 0 := h0
      rw [List.foldl_cons, hts, ih, h0']
      simp [h0]

/-- C4: the event buffer has exactly 32 slots; a burst handed off before the
caller reads keeps exactly the first 32 events and drops the rest from the
producer's point of view (a saturated buffer absorbs nothing more); the bridge
consumes at most one event per call, returning the first available one and
leaving the backlog unread. -/
theorem watch_buffer_and_single_consume (events buf : List Event) (e a : Event)
    (rest : List Event) (p : String) (t rev : Int) :
    eventChanCapacity = 32 ∧
    produceBurst events = events.take eventChanCapacity ∧
    (buf.length ≥ eventChanCapacity → trySend buf e = buf) ∧
    receiveOne (a :: rest) = (some a, rest) ∧
    buf.length ≤ (receiveOne buf).2.length + 1 ∧
    returnedValue (gohan_sync_watch [.str p, .int t, .int rev] (.event a)) =
      some (convertSyncEvent a) := by
  refine ⟨rfl, ?_, ?_, rfl, ?_, rfl⟩
  · rw [produceBurst, trySend_foldl_eq_take]
    simp
  · intro h
    simp [trySend, Nat.not_lt_of_ge h]
  · cases buf <;> simp [receiveOne]

/-- C4 witness: a buffer holding 32 events is saturated and the producer's
hand-off of a further event is dropped. -/
theorem watch_buffer_and_single_consume_witness :
    trySend (List.replicate 32 (syntheticEvent 0)) (syntheticEvent 1) =
      List.replicate 32 (syntheticEvent 0) :=
  (watch_buffer_and_single_consume [] (List.replicate 32 (syntheticEvent 0))
      (syntheticEvent 1) (syntheticEvent 2) [] "p" 1 0).2.2.1
    (by simp [eventChanCapacity])

/-- C5: the worker relays at most one error per call; when the subscription
fails first, the failure is thrown to the caller as a catchable script
exception (and no value is returned); every outcome surfaces at most one
exception; and once the subscription has reported an error it is terminated. -/
theorem watch_single_error (watchResult : Option String) (p : String) (t rev : Int)
    (m : String) (outcome : RaceOutcome) (msgs : List LinkMsg) (buf : List Event) :
    (watchWorkerErrors watchResult).length ≤ 1 ∧
    thrownError (gohan_sync_watch [.str p, .int t, .int rev] (.syncError m)) =
      some ("Sync watch ex failed: " ++ m) ∧
    returnedValue (gohan_sync_watch [.str p, .int t, .int rev] (.syncError m)) =
      none ∧
    throwCount (gohan_sync_watch [.str p, .int t, .int rev] outcome) ≤ 1 ∧
    ((watchSubscription msgs buf).2.1.isSome = true →
      (watchSubscription msgs buf).2.2 = true) := by
  refine ⟨?_, rfl, rfl, ?_, ?_⟩
  · cases watchResult <;> simp [watchWorkerErrors]
  · cases outcome <;> simp [gohan_sync_watch, GetString, GetInt64, throwCount]
  · induction msgs generalizing buf with
    | nil => simp [watchSubscription]
    | cons msg rest ih =>
      cases msg with
      | ev e => exact ih (trySend buf e)
      | stop => simp [watchSubscription]
      | linkFailure m' => simp [watchSubscription]

/-- C5 witness: a link failure is reported and the subscription is then
terminated. -/
theorem watch_single_error_witness :
    (watchSubscription [LinkMsg.linkFailure "link down"] []).2.2 = true :=
  (watch_single_error none "p" 1 0 "e" .timeout
      [LinkMsg.linkFailure "link down"] []).2.2.2.2 rfl

/-- Invalid fetch arguments make the call a single argument-error throw with no
store or network dispatch. -/
theorem fetch_invalid_args_aux (args : List OttoValue) (fo : FetchOutcome)
    (h : fetchArgsValid args = false) :
    (∃ m, gohan_sync_fetch args fo = [.throwException m]) ∧
    dispatches (gohan_sync_fetch args fo) = false := by
  rcases args with _ | ⟨a0, _ | ⟨a1, rest1⟩⟩
  · exact ⟨⟨_, rfl⟩, rfl⟩
  · cases a0 with
    | str s => simp [fetchArgsValid] at h
    | int n => exact ⟨⟨_, rfl⟩, rfl⟩
    | other => exact ⟨⟨_, rfl⟩, rfl⟩
  · exact ⟨⟨_, rfl⟩, rfl⟩

/-- Invalid watch arguments make the call a single argument-error throw with no
store or network dispatch. -/
theorem watch_invalid_args_aux (args : List OttoValue) (wo : RaceOutcome)
    (h : watchArgsValid args = false) :
    (∃ m, gohan_sync_watch args wo = [.throwException m]) ∧
    dispatches (gohan_sync_watch args wo) = false := by
  rcases args with _ | ⟨a0, _ | ⟨a1, _ | ⟨a2, _ | ⟨a3, rest3⟩⟩⟩⟩
  · exact ⟨⟨_, rfl⟩, rfl⟩
  · cases a0 <;> exact ⟨⟨_, rfl⟩, rfl⟩
  · cases a0 <;> cases a1 <;> exact ⟨⟨_, rfl⟩, rfl⟩
  · cases a0 with
    | str s =>
      cases a1 with
      | int n1 =>
        cases a2 with
        | int n2 => simp [watchArgsValid] at h
        | str s2 => exact ⟨⟨_, rfl⟩, rfl⟩
        | other => exact ⟨⟨_, rfl⟩, rfl⟩
      | str s1 => exact ⟨⟨_, rfl⟩, rfl⟩
      | other => exact ⟨⟨_, rfl⟩, rfl⟩
    | int n => exact ⟨⟨_, rfl⟩, rfl⟩
    | other => exact ⟨⟨_, rfl⟩, rfl⟩
  · exact ⟨⟨_, rfl⟩, rfl⟩

/-- C6: both bridge builtins validate arity and argument types fully before any
store or network interaction: on a wrong arity or a wrongly typed argument the
whole call is one caller-visible argument-error throw and nothing is
dispatched, while validly typed calls of the right arity do dispatch. -/
theorem args_validated_before_io (args : List OttoValue) (fo : FetchOutcome)
    (wo : RaceOutcome) :
    (fetchArgsValid args = false →
      (∃ m, gohan_sync_fetch args fo = [.throwException m]) ∧
      dispatches (gohan_sync_fetch args fo) = false) ∧
    (watchArgsValid args = false →
      (∃ m, gohan_sync_watch args wo = [.throwException m]) ∧
      dispatches (gohan_sync_watch args wo) = false) ∧
    (fetchArgsValid args = true → dispatches (gohan_sync_fetch args fo) = true) ∧
    (watchArgsValid args = true → dispatches (gohan_sync_watch args wo) = true) := by
  refine ⟨fetch_invalid_args_aux args fo, watch_invalid_args_aux args wo, ?_, ?_⟩
  · intro h
    rcases args with _ | ⟨a0, _ | ⟨a1, rest1⟩⟩ <;>
      first
        | (cases a0 <;> simp_all [fetchArgsValid]) <;>
            (cases fo with
              | interrupt => rfl
              | done r => cases r <;> rfl)
        | simp [fetchArgsValid] at h
  · intro h
    rcases args with _ | ⟨a0, _ | ⟨a1, _ | ⟨a2, _ | ⟨a3, rest3⟩⟩⟩⟩
    all_goals try simp [watchArgsValid] at h
    cases a0 <;> cases a1 <;> cases a2 <;> simp_all [watchArgsValid]
    cases wo <;> rfl

/-- C6 witness: the zero-argument call of either builtin is a single
argument-error throw without dispatch, and well-typed calls dispatch. -/
theorem args_validated_before_io_witness :
    ((∃ m, gohan_sync_fetch [] .interrupt = [.throwException m]) ∧
      dispatches (gohan_sync_fetch [] .interrupt) = false) ∧
    ((∃ m, gohan_sync_watch [] .timeout = [.throwException m]) ∧
      dispatches (gohan_sync_watch [] .timeout) = false) ∧
    dispatches (gohan_sync_fetch [.str "p"] .interrupt) = true ∧
    dispatches (gohan_sync_watch [.str "p", .int 1, .int 0] .timeout) = true :=
  ⟨(args_validated_before_io [] .interrupt .timeout).1 rfl,
   (args_validated_before_io [] .interrupt .timeout).2.1 rfl,
   (args_validated_before_io [.str "p"] .interrupt .timeout).2.2.1 rfl,
   (args_validated_before_io [.str "p", .int 1, .int 0] .interrupt .timeout).2.2.2 rfl⟩

/-- C7: after a timeout or an interrupt has decided the call, nothing appended
to the trace changes what the caller observed (no further event and no further
error reaches the caller); the stop signal is sent at most once per call, so it
always fits the one-slot stop channel without blocking; and the subscription
loop never processes a message arriving after the stop signal — when only plain
events precede the stop it terminates cleanly, with no error. -/
theorem watch_cancellation_teardown (p : String) (t rev : Int)
    (extra : List Action) (outcome : RaceOutcome)
    (msgsBefore msgsAfter : List LinkMsg) (buf : List Event) :
    returnedValue (gohan_sync_watch [.str p, .int t, .int rev] .timeout ++ extra) =
      returnedValue (gohan_sync_watch [.str p, .int t, .int rev] .timeout) ∧
    thrownError (gohan_sync_watch [.str p, .int t, .int rev] .timeout ++ extra) =
      thrownError (gohan_sync_watch [.str p, .int t, .int rev] .timeout) ∧
    returnedValue (gohan_sync_watch [.str p, .int t, .int rev] .interrupt ++ extra) =
      returnedValue (gohan_sync_watch [.str p, .int t, .int rev] .interrupt) ∧
    thrownError (gohan_sync_watch [.str p, .int t, .int rev] .interrupt ++ extra) =
      thrownError (gohan_sync_watch [.str p, .int t, .int rev] .interrupt) ∧
    sendStopCount (gohan_sync_watch [.str p, .int t, .int rev] outcome) ≤
      stopChanCapacity ∧
    watchSubscription (msgsBefore ++ LinkMsg.stop :: msgsAfter) buf =
      watchSubscription (msgsBefore ++ [LinkMsg.stop]) buf ∧
    (eventsOnly msgsBefore = true →
      (watchSubscription (msgsBefore ++ LinkMsg.stop :: msgsAfter) buf).2.2 =
          true ∧
        (watchSubscription (msgsBefore ++ LinkMsg.stop :: msgsAfter) buf).2.1 =
          none) := by
  refine ⟨rfl, rfl, rfl, rfl, ?_, ?_, ?_⟩
  · cases outcome <;>
      simp [gohan_sync_watch, GetString, GetInt64, sendStopCount, stopChanCapacity]
  · induction msgsBefore generalizing buf with
    | nil => rfl
    | cons msg rest ih =>
      cases msg with
      | ev e => exact ih (trySend buf e)
      | stop => rfl
      | linkFailure m => rfl
  · intro h
    induction msgsBefore generalizing buf with
    | nil => exact ⟨rfl, rfl⟩
    | cons msg rest ih =>
      cases msg with
      | ev e => exact ih (trySend buf e) (by simpa [eventsOnly] using h)
      | stop => simp [eventsOnly] at h
      | linkFailure m => simp [eventsOnly] at h

/-- C7 witness: with two buffered mutations around it, a stop signal after one
event terminates the subscription cleanly and the later event is never
processed. -/
theorem watch_cancellation_teardown_witness :
    (watchSubscription
        [LinkMsg.ev (syntheticEvent 6), LinkMsg.stop,
          LinkMsg.ev (syntheticEvent 7)] []).2.2 = true ∧
    (watchSubscription
        [LinkMsg.ev (syntheticEvent 6), LinkMsg.stop,
          LinkMsg.ev (syntheticEvent 7)] []).2.1 = none :=
  (watch_cancellation_teardown "p" 1 0 [] .timeout [LinkMsg.ev (syntheticEvent 6)]
      [LinkMsg.ev (syntheticEvent 7)] []).2.2.2.2.2.2 rfl

end Gohan
